import Mathlib

/-
Verification of the relay core (`src/relay/relay.py`, class `TrustlinesRelay`)
against its natural-language specification.  The embedding below translates the
relevant methods of `TrustlinesRelay` into Lean definitions.  Collaborator
modules that are not part of the provided sources (the currency-network graph,
the stream subjects, the event classes, `concurrency_utils.joinall` and
`sorted_events`) are modelled from the specification; each such definition says
so in its doc comment.
-/

namespace Relay

abbrev Addr := String

abbrev Token := String

/-- Association-list lookup, mirroring a Python dict read `d[k]` (`none` plays
the role of a `KeyError`). -/
def alookup {τ : Type} (a : Addr) : List (Addr × τ) → Option τ
  | [] => none
  | (k, v) :: t => if k = a then some v else alookup a t

/-- Membership test on an association list, mirroring `k in d`. -/
def ahas {τ : Type} (a : Addr) (l : List (Addr × τ)) : Bool :=
  (alookup a l).isSome

/-- Update the value stored under a key, mirroring mutation of `d[k]`; keys
absent from the list are left untouched. -/
def aupdate {τ : Type} (a : Addr) (f : τ → τ) : List (Addr × τ) → List (Addr × τ)
  | [] => []
  | (k, v) :: t => if k = a then (k, f v) :: t else (k, v) :: aupdate a f t

/-- Modelled from the spec: an account edge of the ledger graph (`graph.py` is
not among the provided sources).  Keyed by the unordered pair of its endpoints
and directionally annotated: all directional fields are stored from `user1`'s
point of view. -/
structure Trustline where
  user1 : Addr
  user2 : Addr
  creditline_given : Int
  creditline_received : Int
  interest_rate_given : Int
  interest_rate_received : Int
  balance : Int
  last_update_timestamp : Nat
  deriving DecidableEq

/-- Modelled from the spec: the per-network ledger-graph mirror
(`CurrencyNetworkGraph` of the missing `network_graph/graph.py`), holding the
static config read from the proxy at creation and the set of account edges. -/
structure CurrencyNetworkGraph where
  capacity_imbalance_fee_divisor : Nat
  default_interest_rate : Int
  custom_interests : Bool
  prevent_mediator_interests : Bool
  trustlines : List Trustline
  deriving DecidableEq

/-- Whether an edge is the edge of the unordered pair of addresses. -/
def matchesPair (e : Trustline) (a b : Addr) : Bool :=
  (e.user1 == a && e.user2 == b) || (e.user1 == b && e.user2 == a)

/-- Whether an edge touches the given address. -/
def touchesUser (e : Trustline) (u : Addr) : Bool :=
  e.user1 == u || e.user2 == u

/-- Modelled from the spec: `graph.update_balance(from, to, value, timestamp)`
upserts the edge's balance and `last_update_timestamp`; the first touch
materializes the edge.  The stored balance is oriented from `user1`. -/
def updateBalance (g : CurrencyNetworkGraph) (from_ to_ : Addr) (value : Int)
    (timestamp : Nat) : CurrencyNetworkGraph :=
  if g.trustlines.any (fun e => matchesPair e from_ to_) then
    { g with trustlines := g.trustlines.map (fun e =>
        if matchesPair e from_ to_ then
          if e.user1 == from_ then
            { e with balance := value, last_update_timestamp := timestamp }
          else
            { e with balance := -value, last_update_timestamp := timestamp }
        else e) }
  else
    { g with trustlines := g.trustlines ++
        [{ user1 := from_, user2 := to_, creditline_given := 0,
           creditline_received := 0, interest_rate_given := 0,
           interest_rate_received := 0, balance := value,
           last_update_timestamp := timestamp }] }

/-- Modelled from the spec: `graph.update_trustline` upserts the credit-limit
and interest fields of the edge and does not touch `balance`. -/
def updateTrustline (g : CurrencyNetworkGraph) (creditor debtor : Addr)
    (creditline_given creditline_received interest_rate_given
     interest_rate_received : Int) : CurrencyNetworkGraph :=
  if g.trustlines.any (fun e => matchesPair e creditor debtor) then
    { g with trustlines := g.trustlines.map (fun e =>
        if matchesPair e creditor debtor then
          if e.user1 == creditor then
            { e with creditline_given := creditline_given,
                     creditline_received := creditline_received,
                     interest_rate_given := interest_rate_given,
                     interest_rate_received := interest_rate_received }
          else
            { e with creditline_given := creditline_received,
                     creditline_received := creditline_given,
                     interest_rate_given := interest_rate_received,
                     interest_rate_received := interest_rate_given }
        else e) }
  else
    { g with trustlines := g.trustlines ++
        [{ user1 := creditor, user2 := debtor,
           creditline_given := creditline_given,
           creditline_received := creditline_received,
           interest_rate_given := interest_rate_given,
           interest_rate_received := interest_rate_received,
           balance := 0, last_update_timestamp := 0 }] }

/-- Modelled from the spec: lazy interest accrual.  The exact formula lives in
the missing `graph.py`; the spec fixes only that the stored rate (direction
sensitive by the sign of the balance) is applied over
`timestamp - last_update_timestamp` and that accrual is zero for
`timestamp ≤ last_update_timestamp`; a linear rate-per-hundred accrual is used
here.  Truncated subtraction on `Nat` yields the required zero accrual for
queries at or before the stored timestamp. -/
def accruedBalance (balance rate_pos rate_neg : Int) (last_update t : Nat) : Int :=
  let delta : Int := Int.ofNat (t - last_update)
  let rate : Int := if 0 ≤ balance then rate_pos else rate_neg
  balance + balance * rate * delta / 100

/-- The stored balance of an edge seen from one of its endpoints. -/
def balanceFrom (e : Trustline) (u : Addr) : Int :=
  if e.user1 == u then e.balance else -e.balance

/-- The accrued balance of an edge seen from one of its endpoints. -/
def accruedFrom (e : Trustline) (u : Addr) (t : Nat) : Int :=
  if e.user1 == u then
    accruedBalance e.balance e.interest_rate_given e.interest_rate_received
      e.last_update_timestamp t
  else
    accruedBalance (-e.balance) e.interest_rate_received e.interest_rate_given
      e.last_update_timestamp t

/-- Modelled from the spec: `graph.get_account_sum(user, counterparty,
timestamp)`, the accrued balance of the edge of the pair, zero when the edge
does not exist; a pure read. -/
def getAccountSumPair (g : CurrencyNetworkGraph) (user counterparty : Addr)
    (t : Nat) : Int :=
  match g.trustlines.find? (fun e => matchesPair e user counterparty) with
  | none => 0
  | some e => accruedFrom e user t

/-- Modelled from the spec: `graph.get_account_sum(user, timestamp)` with the
counterparty omitted sums the accrued balances over all of the user's edges. -/
def getAccountSumAll (g : CurrencyNetworkGraph) (user : Addr) (t : Nat) : Int :=
  ((g.trustlines.filter (fun e => touchesUser e user)).map
    (fun e => accruedFrom e user t)).sum

/-- Modelled from the spec: the derived `users` set of a graph, the addresses
touching at least one edge. -/
def graphUsers (g : CurrencyNetworkGraph) : List Addr :=
  (g.trustlines.foldr (fun e acc => e.user1 :: e.user2 :: acc) []).dedup

/-- The payload of a raw `BalanceUpdate` blockchain event as consumed by
`_process_balance_update` (fields read there: `network_address`, `from_`,
`to`, `value`, `timestamp`). -/
structure BalanceUpdateEventData where
  network_address : Addr
  from_ : Addr
  to_ : Addr
  value : Int
  timestamp : Nat
  deriving DecidableEq

/-- The payload of a raw `TrustlineUpdate` (or request / request-cancel)
blockchain event as consumed by `_process_trustline_update`. -/
structure TrustlineUpdateEventData where
  network_address : Addr
  from_ : Addr
  to_ : Addr
  creditline_given : Int
  creditline_received : Int
  interest_rate_given : Int
  interest_rate_received : Int
  timestamp : Nat
  deriving DecidableEq

/-- The payload of a raw `Transfer` blockchain event. -/
structure TransferEventData where
  network_address : Addr
  from_ : Addr
  to_ : Addr
  value : Int
  timestamp : Nat
  deriving DecidableEq

/-- Events published to a subject.  The two derived kinds mirror
`BalanceEvent` and `NetworkBalanceEvent` of the missing `events.py`
(modelled from the spec: a `BalanceEvent(network, from, to, account_sum,
timestamp)` concerns `from`); the raw kinds are per-user projections of raw
blockchain events, a copy carrying a `user` field bound to one participant
(`_publish_blockchain_event`). -/
inductive PublishedEvent where
  | balanceEvent (network_address from_ to_ : Addr) (account_sum : Int)
      (timestamp : Nat)
  | networkBalanceEvent (network_address user : Addr) (account_sum : Int)
      (timestamp : Nat)
  | rawBalanceUpdate (d : BalanceUpdateEventData) (user : Addr)
  | rawTrustlineUpdate (d : TrustlineUpdateEventData) (user : Addr)
  | rawTrustlineRequest (d : TrustlineUpdateEventData) (user : Addr)
  | rawTrustlineRequestCancel (d : TrustlineUpdateEventData) (user : Addr)
  | rawTransfer (d : TransferEventData) (user : Addr)
  deriving DecidableEq

/-- The user a published event concerns (`event.user`, asserted non-None by
`_publish_user_event`). -/
def PublishedEvent.user : PublishedEvent → Addr
  | .balanceEvent _ f _ _ _ => f
  | .networkBalanceEvent _ u _ _ => u
  | .rawBalanceUpdate _ u => u
  | .rawTrustlineUpdate _ u => u
  | .rawTrustlineRequest _ u => u
  | .rawTrustlineRequestCancel _ u => u
  | .rawTransfer _ u => u

/-- Whether a published event is a per-user projection of a raw blockchain
event (as opposed to one of the two derived balance-event kinds). -/
def PublishedEvent.isRawProjection : PublishedEvent → Bool
  | .balanceEvent _ _ _ _ _ => false
  | .networkBalanceEvent _ _ _ _ => false
  | _ => true

/-- Modelled from the spec: the client of a subscription, a tagged variant
over generic clients and push-notification clients; a push client carries its
`client_token` (the `streams.py` / push-client sources are not provided). -/
inductive SubClient where
  | generic (id : Nat)
  | push (client_token : Token)
  deriving DecidableEq

/-- Modelled from the spec: a subscription held by a subject. -/
structure Subscription where
  client : SubClient
  deriving DecidableEq

/-- Modelled from the spec: a per-address subject of the fan-out hub, an
ordered list of subscriptions (`Subject` of the missing `streams.py`;
`subscribe` appends). -/
structure Subject where
  subscriptions : List Subscription
  deriving DecidableEq

/-- Whether a subscription is a push-notification subscription carrying the
given client token. -/
def isPushWithToken (tok : Token) (sub : Subscription) : Bool :=
  match sub.client with
  | .push t => t == tok
  | .generic _ => false

/-- Materialize a defaultdict entry: reading `self.subjects[u]` inserts an
empty `Subject` when the key is absent. -/
def touchSubject (l : List (Addr × Subject)) (u : Addr) : List (Addr × Subject) :=
  if ahas u l then l else l ++ [(u, ⟨[]⟩)]

/-- The subscription list of a subject as observed through the defaultdict. -/
def subjectSubs (l : List (Addr × Subject)) (u : Addr) : List Subscription :=
  ((alookup u l).getD ⟨[]⟩).subscriptions

/-- Modelled from the spec: `subject.subscribe(client)` appends a subscription
for the client; through the defaultdict an absent subject is materialized. -/
def subjectSubscribe (l : List (Addr × Subject)) (u : Addr) (c : SubClient) :
    List (Addr × Subject) :=
  if ahas u l then
    aupdate u (fun s => ⟨s.subscriptions ++ [⟨c⟩]⟩) l
  else
    l ++ [(u, ⟨[⟨c⟩]⟩)]

/-- The static per-network data held by a `CurrencyNetworkProxy` as used by the
relay: the config fields read at creation and the mutable `is_frozen` flag. -/
structure NetworkProxy where
  capacity_imbalance_fee_divisor : Nat
  default_interest_rate : Int
  custom_interests : Bool
  prevent_mediator_interests : Bool
  is_frozen : Bool
  deriving DecidableEq

/-- The exceptions the embedded operations can raise. -/
inductive Err where
  | assertionError
  | keyError
  | invalidClientToken
  | tokenNotFound
  | checksumConversionError
  | osError
  deriving DecidableEq

/-- The mutable state of a `TrustlinesRelay` instance, restricted to the
fields the verified operations touch.  `network_listeners` records one entry
per `_start_listen_network` call, so its count per address is the number of
times listeners were attached for that network. -/
structure RelayState where
  currency_network_proxies : List (Addr × NetworkProxy)
  currency_network_graphs : List (Addr × CurrencyNetworkGraph)
  shield_proxies : List Addr
  gateway_proxies : List Addr
  escrow_proxies : List Addr
  unw_eth_proxies : List Addr
  token_proxies : List Addr
  exchange_addresses : List Addr
  known_identity_factories : List Addr
  subjects : List (Addr × Subject)
  messaging : List (Addr × Subject)
  firebase_enabled : Bool
  client_token_db : Option (List (Addr × Token))
  network_listeners : List Addr
  deriving DecidableEq

/-- The tracked network addresses (`network_addresses`, the keys of
`currency_network_proxies`). -/
def networkAddresses (s : RelayState) : List Addr :=
  s.currency_network_proxies.map (fun p => p.1)

/-- Embeds `TrustlinesRelay.new_network` (relay.py 372-387): assert the address
is a checksum address, return early when the address is already tracked,
otherwise create the proxy, create the graph from the proxy's config fields,
and attach the network listeners (`_start_listen_network`).  The result pairs
the post-state with the raised exception, if any; the assert fires before any
mutation.  `isChecksum` stands for the external `is_checksum_address` and
`mkProxy` for the `CurrencyNetworkProxy` constructor reading config from the
chain. -/
def newNetwork (isChecksum : Addr → Bool) (mkProxy : Addr → NetworkProxy)
    (s : RelayState) (address : Addr) : RelayState × Option Err :=
  if !(isChecksum address) then (s, some .assertionError)
  else if ahas address s.currency_network_proxies then (s, none)
  else
    let proxy := mkProxy address
    let graph : CurrencyNetworkGraph :=
      { capacity_imbalance_fee_divisor := proxy.capacity_imbalance_fee_divisor,
        default_interest_rate := proxy.default_interest_rate,
        custom_interests := proxy.custom_interests,
        prevent_mediator_interests := proxy.prevent_mediator_interests,
        trustlines := [] }
    ({ s with
        currency_network_proxies := s.currency_network_proxies ++ [(address, proxy)],
        currency_network_graphs := s.currency_network_graphs ++ [(address, graph)],
        network_listeners := s.network_listeners ++ [address] }, none)

/-- Embeds `new_shield` (relay.py 389-396). -/
def newShield (isChecksum : Addr → Bool) (s : RelayState) (address : Addr) :
    RelayState × Option Err :=
  if !(isChecksum address) then (s, some .assertionError)
  else if s.shield_proxies.contains address then (s, none)
  else ({ s with shield_proxies := s.shield_proxies ++ [address] }, none)

/-- Embeds `new_escrow` (relay.py 398-405). -/
def newEscrow (isChecksum : Addr → Bool) (s : RelayState) (address : Addr) :
    RelayState × Option Err :=
  if !(isChecksum address) then (s, some .assertionError)
  else if s.escrow_proxies.contains address then (s, none)
  else ({ s with escrow_proxies := s.escrow_proxies ++ [address] }, none)

/-- Embeds `new_gateway` (relay.py 407-414). -/
def newGateway (isChecksum : Addr → Bool) (s : RelayState) (address : Addr) :
    RelayState × Option Err :=
  if !(isChecksum address) then (s, some .assertionError)
  else if s.gateway_proxies.contains address then (s, none)
  else ({ s with gateway_proxies := s.gateway_proxies ++ [address] }, none)

/-- Embeds `new_exchange` (relay.py 416-428); the orderbook's exchange
registry is modelled as the list `exchange_addresses`. -/
def newExchange (isChecksum : Addr → Bool) (s : RelayState) (address : Addr) :
    RelayState × Option Err :=
  if !(isChecksum address) then (s, some .assertionError)
  else if s.exchange_addresses.contains address then (s, none)
  else ({ s with exchange_addresses := s.exchange_addresses ++ [address] }, none)

/-- Embeds `new_unw_eth` (relay.py 430-436). -/
def newUnwEth (isChecksum : Addr → Bool) (s : RelayState) (address : Addr) :
    RelayState × Option Err :=
  if !(isChecksum address) then (s, some .assertionError)
  else if s.unw_eth_proxies.contains address then (s, none)
  else ({ s with unw_eth_proxies := s.unw_eth_proxies ++ [address] }, none)

/-- Embeds `new_known_factory` (relay.py 446-450). -/
def newKnownFactory (isChecksum : Addr → Bool) (s : RelayState) (address : Addr) :
    RelayState × Option Err :=
  if !(isChecksum address) then (s, some .assertionError)
  else if s.known_identity_factories.contains address then (s, none)
  else ({ s with known_identity_factories :=
            s.known_identity_factories ++ [address] }, none)

/-- Embeds `_generate_trustline_events` (relay.py 989-1011): two directional
`BalanceEvent`s for `(user1, user2)` and `(user2, user1)` followed by one
`NetworkBalanceEvent` per user, every value freshly queried from the graph at
`timestamp`. -/
def generateTrustlineEvents (g : CurrencyNetworkGraph)
    (network_address user1 user2 : Addr) (timestamp : Nat) :
    List PublishedEvent :=
  ([(user1, user2), (user2, user1)].map (fun p =>
    PublishedEvent.balanceEvent network_address p.1 p.2
      (getAccountSumPair g p.1 p.2 timestamp) timestamp))
  ++ ([user1, user2].map (fun u =>
    PublishedEvent.networkBalanceEvent network_address u
      (getAccountSumAll g u timestamp) timestamp))

/-- Embeds `_publish_trustline_events` followed by `_publish_user_event`
(relay.py 1013-1021, 1059-1061): each generated event is published to the
subject of `event.user`.  A publication is recorded as the pair of the subject
address and the event. -/
def publishTrustlineEvents (g : CurrencyNetworkGraph)
    (network_address user1 user2 : Addr) (timestamp : Nat) :
    List (Addr × PublishedEvent) :=
  (generateTrustlineEvents g network_address user1 user2 timestamp).map
    (fun e => (e.user, e))

/-- Embeds `_publish_blockchain_event` (relay.py 1053-1057): the raw event is
deep-copied once per participant in `[event.from_, event.to]`, the copy's
`user` field bound to that participant, and published to that user's
subject. -/
def publishBlockchainEvent (mk : Addr → PublishedEvent) (from_ to_ : Addr) :
    List (Addr × PublishedEvent) :=
  [from_, to_].map (fun u => ((mk u).user, mk u))

/-- Embeds `_process_balance_update` (relay.py 957-970): look up the network's
graph (a `KeyError` when untracked), apply `update_balance`, then publish the
derived trustline events for the pair.  Returns the post-state, the list of
publications in order, and the raised exception, if any. -/
def processBalanceUpdate (s : RelayState) (d : BalanceUpdateEventData) :
    RelayState × List (Addr × PublishedEvent) × Option Err :=
  match alookup d.network_address s.currency_network_graphs with
  | none => (s, [], some .keyError)
  | some g =>
    let g2 := updateBalance g d.from_ d.to_ d.value d.timestamp
    let s2 := { s with currency_network_graphs :=
        (aupdate d.network_address (fun _ => g2) s.currency_network_graphs) }
    (s2, publishTrustlineEvents g2 d.network_address d.from_ d.to_ d.timestamp,
     none)

/-- Embeds `_process_trustline_update` (relay.py 1023-1040): look up the graph,
apply `update_trustline`, publish the raw event to both participants, then
publish the derived trustline events. -/
def processTrustlineUpdate (s : RelayState) (d : TrustlineUpdateEventData) :
    RelayState × List (Addr × PublishedEvent) × Option Err :=
  match alookup d.network_address s.currency_network_graphs with
  | none => (s, [], some .keyError)
  | some g =>
    let g2 := updateTrustline g d.from_ d.to_ d.creditline_given
        d.creditline_received d.interest_rate_given d.interest_rate_received
    let s2 := { s with currency_network_graphs :=
        (aupdate d.network_address (fun _ => g2) s.currency_network_graphs) }
    (s2, publishBlockchainEvent (fun u => .rawTrustlineUpdate d u) d.from_ d.to_
          ++ publishTrustlineEvents g2 d.network_address d.from_ d.to_
              d.timestamp,
     none)

/-- Embeds `_process_transfer` (relay.py 972-973): publish the raw event to
both participants; no graph mutation. -/
def processTransfer (s : RelayState) (d : TransferEventData) :
    RelayState × List (Addr × PublishedEvent) × Option Err :=
  (s, publishBlockchainEvent (fun u => .rawTransfer d u) d.from_ d.to_, none)

/-- Embeds `_process_trustline_request` (relay.py 975-977). -/
def processTrustlineRequest (s : RelayState) (d : TrustlineUpdateEventData) :
    RelayState × List (Addr × PublishedEvent) × Option Err :=
  (s, publishBlockchainEvent (fun u => .rawTrustlineRequest d u) d.from_ d.to_,
   none)

/-- Embeds `_process_trustline_request_cancel` (relay.py 979-981). -/
def processTrustlineRequestCancel (s : RelayState)
    (d : TrustlineUpdateEventData) :
    RelayState × List (Addr × PublishedEvent) × Option Err :=
  (s, publishBlockchainEvent (fun u => .rawTrustlineRequestCancel d u) d.from_
      d.to_, none)

/-- Embeds `_process_network_freeze` (relay.py 983-987): set the tracked
proxy's `is_frozen` flag to `True` (a `KeyError` when untracked). -/
def processNetworkFreeze (s : RelayState) (network_address : Addr) :
    RelayState × Option Err :=
  if ahas network_address s.currency_network_proxies then
    ({ s with currency_network_proxies :=
        (aupdate network_address (fun p => { p with is_frozen := true })
          s.currency_network_proxies) }, none)
  else (s, some .keyError)

/-- Embeds `is_currency_network_frozen` (relay.py 250-251). -/
def isCurrencyNetworkFrozen (s : RelayState) (address : Addr) : Option Bool :=
  (alookup address s.currency_network_proxies).map (fun p => p.is_frozen)

/-- Embeds the full-sync callback installed by `_start_listen_network` through
`_create_on_full_sync` (relay.py 887-888, 1064-1068): `graph.gen_network`
atomically replaces the network's entire edge set from the snapshot. -/
def onFullSync (s : RelayState) (network_address : Addr) (rep : List Trustline) :
    RelayState :=
  { s with currency_network_graphs :=
      (aupdate network_address (fun g => { g with trustlines := rep })
        s.currency_network_graphs) }

/-- Embeds `_start_pushnotifications` (relay.py 475-490): validate the client
token against the push backend (`checkClientToken` stands for the external
`FirebaseRawPushService.check_client_token`), raising
`InvalidClientTokenException` when rejected; return without subscribing when
some push subscription of the subject already carries the token; otherwise
subscribe a fresh push client to both the user's subject and messaging
subject.  Reading `self.subjects[u].subscriptions` materializes the defaultdict
entry. -/
def startPushnotifications (checkClientToken : Token → Bool) (s : RelayState)
    (user_address : Addr) (client_token : Token) : RelayState × Option Err :=
  if !(checkClientToken client_token) then (s, some .invalidClientToken)
  else
    let s1 := { s with subjects := touchSubject s.subjects user_address }
    if (subjectSubs s1.subjects user_address).any (isPushWithToken client_token)
    then (s1, none)
    else
      ({ s1 with
          subjects := subjectSubscribe s1.subjects user_address
            (.push client_token),
          messaging := subjectSubscribe s1.messaging user_address
            (.push client_token) }, none)

/-- Remove from a subject every subscription whose client matches the closed
push client.  Modelled from the spec: `PushNotificationClient.close()`
destroys the client's subscriptions (the client sources are not provided). -/
def closePushSubscriptions (l : List (Addr × Subject)) (u : Addr)
    (tok : Token) : List (Addr × Subject) :=
  aupdate u (fun s =>
    ⟨s.subscriptions.filter (fun x => !(isPushWithToken tok x))⟩) l

/-- Embeds `_stop_pushnotifications` (relay.py 492-510): close every push
subscription of the subject carrying the token; raise
`TokenNotFoundException` when none matched.  Reading
`self.subjects[u].subscriptions` materializes the defaultdict entry. -/
def stopPushnotifications (s : RelayState) (user_address : Addr)
    (client_token : Token) : RelayState × Option Err :=
  let s1 := { s with subjects := touchSubject s.subjects user_address }
  if (subjectSubs s1.subjects user_address).any (isPushWithToken client_token)
  then
    ({ s1 with
        subjects := closePushSubscriptions s1.subjects user_address client_token,
        messaging := closePushSubscriptions s1.messaging user_address
          client_token }, none)
  else (s1, some .tokenNotFound)

/-- Embeds `add_push_client_token` (relay.py 460-467): a no-op when the push
service is disabled; otherwise subscribe through `_start_pushnotifications`
(letting `InvalidClientTokenException` propagate before any store access),
then persist the mapping in the client-token store, swallowing
`ClientTokenAlreadyExistsException`.  The store's `add_client_token` is
modelled from the spec: it fails on an existing mapping, so the swallowed
conflict leaves the store unchanged. -/
def addPushClientToken (checkClientToken : Token → Bool) (s : RelayState)
    (user_address : Addr) (client_token : Token) : RelayState × Option Err :=
  if s.firebase_enabled then
    match startPushnotifications checkClientToken s user_address client_token with
    | (s1, some e) => (s1, some e)
    | (s1, none) =>
      match s1.client_token_db with
      | none => (s1, none)
      | some db =>
        if db.contains (user_address, client_token) then (s1, none)
        else ({ s1 with client_token_db :=
                  (some (db ++ [(user_address, client_token)])) }, none)
  else (s, none)

/-- Embeds `delete_push_client_token` (relay.py 469-473): a no-op when the
push service is disabled; otherwise first delete the mapping from the
client-token store (modelled from the spec as removal of the pair), then run
`_stop_pushnotifications`, whose `TokenNotFoundException` propagates. -/
def deletePushClientToken (s : RelayState) (user_address : Addr)
    (client_token : Token) : RelayState × Option Err :=
  if s.firebase_enabled then
    let s1 :=
      match s.client_token_db with
      | none => s
      | some db => { s with client_token_db :=
          (some (db.filter (fun p =>
            !(p.1 == user_address && p.2 == client_token)))) }
    stopPushnotifications s1 user_address client_token
  else (s, none)

/-- The number of push subscriptions of the subject carrying the token. -/
def countPushSubs (s : RelayState) (u : Addr) (tok : Token) : Nat :=
  (subjectSubs s.subjects u).countP (fun x => isPushWithToken tok x)

/-- A raw blockchain event as returned by the historic event queries, carrying
its deterministic ordering key. -/
structure BlockchainEvent where
  block_number : Nat
  log_index : Nat
  event_type : String
  deriving DecidableEq

/-- Modelled from the spec: the ordering `order_key(event) = (block_number,
log_index)` compared lexicographically. -/
def orderKeyLe (a b : BlockchainEvent) : Prop :=
  a.block_number < b.block_number ∨
    (a.block_number = b.block_number ∧ a.log_index ≤ b.log_index)

instance : DecidableRel orderKeyLe := fun a b =>
  inferInstanceAs (Decidable (a.block_number < b.block_number ∨
    (a.block_number = b.block_number ∧ a.log_index ≤ b.log_index)))

instance : IsTotal BlockchainEvent orderKeyLe :=
  ⟨fun a b => by unfold orderKeyLe; omega⟩

instance : IsTrans BlockchainEvent orderKeyLe :=
  ⟨fun a b c => by unfold orderKeyLe; omega⟩

/-- Modelled from the spec: `sorted_events` of the missing
`blockchain/proxy.py`, the single sorting authority: a stable sort by
`order_key`. -/
def sortedEvents (l : List BlockchainEvent) : List BlockchainEvent :=
  List.insertionSort orderKeyLe l

/-- The contract kinds `get_user_events` queries. -/
inductive QueryKind where
  | network
  | unwEth
  | exchange
  | escrow
  deriving DecidableEq

/-- One zero-argument query task built by the `_get_*_event_queries` helpers:
the contract kind and address it targets, the user filter, the event type
passed (`none` for the get-all-events variant), and the starting block. -/
structure QuerySpec where
  kind : QueryKind
  address : Addr
  user_address : Addr
  event_type : Option String
  from_block : Nat
  deriving DecidableEq

/-- Embeds `_get_network_event_queries` (relay.py 618-644): one task per
tracked currency network; the task queries by type when a type is given and
the proxy supports it, and falls back to the get-all-events query otherwise.
`eventTypes` stands for the proxy's `event_types` set. -/
def getNetworkEventQueries (s : RelayState) (eventTypes : Addr → List String)
    (user_address : Addr) (ty : Option String) (from_block : Nat) :
    List QuerySpec :=
  (networkAddresses s).map (fun a =>
    { kind := .network, address := a, user_address := user_address,
      event_type :=
        match ty with
        | some t => if (eventTypes a).contains t then some t else none
        | none => none,
      from_block := from_block })

/-- Embeds `_get_unw_eth_event_queries` (relay.py 672-696). -/
def getUnwEthEventQueries (s : RelayState) (eventTypes : Addr → List String)
    (user_address : Addr) (ty : Option String) (from_block : Nat) :
    List QuerySpec :=
  s.unw_eth_proxies.map (fun a =>
    { kind := .unwEth, address := a, user_address := user_address,
      event_type :=
        match ty with
        | some t => if (eventTypes a).contains t then some t else none
        | none => none,
      from_block := from_block })

/-- Embeds `_get_exchange_event_queries` (relay.py 698-722). -/
def getExchangeEventQueries (s : RelayState) (eventTypes : Addr → List String)
    (user_address : Addr) (ty : Option String) (from_block : Nat) :
    List QuerySpec :=
  s.exchange_addresses.map (fun a =>
    { kind := .exchange, address := a, user_address := user_address,
      event_type :=
        match ty with
        | some t => if (eventTypes a).contains t then some t else none
        | none => none,
      from_block := from_block })

/-- Embeds `_get_escrow_event_queries` (relay.py 646-670). -/
def getEscrowEventQueries (s : RelayState) (eventTypes : Addr → List String)
    (user_address : Addr) (ty : Option String) (from_block : Nat) :
    List QuerySpec :=
  s.escrow_proxies.map (fun a =>
    { kind := .escrow, address := a, user_address := user_address,
      event_type :=
        match ty with
        | some t => if (eventTypes a).contains t then some t else none
        | none => none,
      from_block := from_block })

/-- Modelled from the spec: `concurrency_utils.joinall` (its source is not
provided).  Every task is given together with its result and its running
duration; under a deadline exactly the tasks finishing within it contribute,
in task order, and unfinished tasks are abandoned; with no deadline all tasks
are awaited. -/
def joinall (tasks : List (List BlockchainEvent × Nat)) (timeout : Option Nat) :
    List (List BlockchainEvent) :=
  match timeout with
  | none => tasks.map (fun t => t.1)
  | some d => (tasks.filter (fun t => t.2 ≤ d)).map (fun t => t.1)

/-- The full query-task list of `get_user_events`, in the source's
concatenation order (relay.py 609-614). -/
def userEventQueries (s : RelayState)
    (netTypes unwTypes exTypes esTypes : Addr → List String)
    (user_address : Addr) (ty : Option String) (from_block : Nat) :
    List QuerySpec :=
  getNetworkEventQueries s netTypes user_address ty from_block
    ++ getUnwEthEventQueries s unwTypes user_address ty from_block
    ++ getExchangeEventQueries s exTypes user_address ty from_block
    ++ getEscrowEventQueries s esTypes user_address ty from_block

/-- Embeds `get_user_events` (relay.py 589-616): assert the user address is a
checksum address (`none` models the assert failing), build one query task per
tracked instance of each kind, run them all under the single timeout through
`joinall`, and return `sorted_events` of the concatenation of the completed
results.  `run` stands for executing one task, yielding its event list and its
running duration. -/
def getUserEvents (isChecksum : Addr → Bool)
    (netTypes unwTypes exTypes esTypes : Addr → List String)
    (run : QuerySpec → List BlockchainEvent × Nat) (s : RelayState)
    (user_address : Addr) (ty : Option String) (from_block : Nat)
    (timeout : Option Nat) : Option (List BlockchainEvent) :=
  if !(isChecksum user_address) then none
  else
    some (sortedEvents
      ((joinall ((userEventQueries s netTypes unwTypes exTypes esTypes
          user_address ty from_block).map run) timeout).flatten))

/-- Severity of a log line emitted during a reconciliation pass. -/
inductive Severity where
  | warning
  | error
  | critical
  deriving DecidableEq

/-- A log line emitted during a reconciliation pass or by the discovery
loop. -/
structure LogEntry where
  severity : Severity
  message : String
  deriving DecidableEq

/-- The parsed shape of `addresses.json` as read by `_load_addresses`
(relay.py 843-881).  A single `identityProxyFactory` value is the singleton
list. -/
structure AddressesManifest where
  networks : List Addr
  network_shields : List Addr
  network_gateways : List Addr
  gateway_escrows : List Addr
  exchange : Option Addr
  unwEth : Option Addr
  identityProxyFactory : List Addr
  deriving DecidableEq

/-- The outcome of reading the manifest file: the `open` call may raise, the
file may be empty, `json.loads` may raise a `JSONDecodeError`, or a manifest
is parsed. -/
inductive ManifestContent where
  | unreadable
  | empty
  | malformed
  | parsed (m : AddressesManifest)
  deriving DecidableEq

/-- Register a list of manifest addresses through one `new_*` entry point,
converting each through `to_checksum_address` first (`toChecksum`, `none`
modelling the raised conversion error); the first raised exception aborts the
remaining registrations, keeping the partial state, and propagates. -/
def registerAll (reg : RelayState → Addr → RelayState × Option Err)
    (toChecksum : Addr → Option Addr) (s : RelayState) :
    List Addr → RelayState × Option Err
  | [] => (s, none)
  | a :: rest =>
    match toChecksum a with
    | none => (s, some .checksumConversionError)
    | some ca =>
      match reg s ca with
      | (s1, some e) => (s1, some e)
      | (s1, none) => registerAll reg toChecksum s1 rest

/-- Sequence two fallible registration stages: a raised exception in the first
skips the second (relay.py 843-881 is straight-line code, so any raise aborts
the rest of the pass). -/
def andThenReg (r : RelayState × Option Err)
    (f : RelayState → RelayState × Option Err) : RelayState × Option Err :=
  match r with
  | (s, some e) => (s, some e)
  | (s, none) => f s

/-- Register an optional manifest entry (the `exchange` and `unwEth` keys). -/
def registerOpt (reg : RelayState → Addr → RelayState × Option Err)
    (toChecksum : Addr → Option Addr) (s : RelayState) :
    Option Addr → RelayState × Option Err
  | none => (s, none)
  | some a =>
    match toChecksum a with
    | none => (s, some .checksumConversionError)
    | some ca => reg s ca

/-- Register the `identityProxyFactory` entries; the source passes these to
`new_known_factory` without a `to_checksum_address` conversion (relay.py
876-881). -/
def registerFactories (isChecksum : Addr → Bool) (s : RelayState) :
    List Addr → RelayState × Option Err
  | [] => (s, none)
  | a :: rest =>
    match newKnownFactory isChecksum s a with
    | (s1, some e) => (s1, some e)
    | (s1, none) => registerFactories isChecksum s1 rest

/-- Embeds `_load_addresses` (relay.py 843-881): an unreadable file raises out
of the pass; an empty file logs a warning and proceeds with no addresses;
malformed JSON is caught inside the pass, logged at error severity, and the
pass proceeds with no addresses; a parsed manifest registers networks,
shields, gateways, escrows, the exchange, the unwrapped-ETH contract and the
identity factories in source order, any raised exception aborting the rest of
the pass with the partial state. -/
def loadAddresses (isChecksum : Addr → Bool) (toChecksum : Addr → Option Addr)
    (mkProxy : Addr → NetworkProxy) (content : ManifestContent)
    (s : RelayState) : RelayState × List LogEntry × Option Err :=
  match content with
  | .unreadable => (s, [], some .osError)
  | .empty =>
    (s, [{ severity := .warning, message := "addresses.json file is empty" }],
     none)
  | .malformed =>
    (s, [{ severity := .error, message := "Could not read addresses.json" }],
     none)
  | .parsed m =>
    let r := andThenReg
      (registerAll (newNetwork isChecksum mkProxy) toChecksum s m.networks)
      (fun s1 => andThenReg
        (registerAll (newShield isChecksum) toChecksum s1 m.network_shields)
        (fun s2 => andThenReg
          (registerAll (newGateway isChecksum) toChecksum s2 m.network_gateways)
          (fun s3 => andThenReg
            (registerAll (newEscrow isChecksum) toChecksum s3 m.gateway_escrows)
            (fun s4 => andThenReg
              (registerOpt (newExchange isChecksum) toChecksum s4 m.exchange)
              (fun s5 => andThenReg
                (registerOpt (newUnwEth isChecksum) toChecksum s5 m.unwEth)
                (fun s6 => registerFactories isChecksum s6
                  m.identityProxyFactory))))))
    (r.1, [], r.2)

/-- Embeds one iteration of the loop body spawned by
`_start_listen_on_new_addresses` (relay.py 914-925): run `_load_addresses`;
any exception escaping it is caught and logged at critical severity; in every
case the iteration falls through to the sleep and the loop continues - the
final Bool records that fall-through and is `true` by the structure of the
source loop. -/
def listenStep (isChecksum : Addr → Bool) (toChecksum : Addr → Option Addr)
    (mkProxy : Addr → NetworkProxy) (content : ManifestContent)
    (s : RelayState) : RelayState × List LogEntry × Bool :=
  match loadAddresses isChecksum toChecksum mkProxy content s with
  | (s1, logs, none) => (s1, logs, true)
  | (s1, logs, some _) =>
    (s1,
     logs ++ [{ severity := .critical, message := "Error while loading addresses" }],
     true)

/-- The discovery loop: pass number `n` observes manifest content
`contents n`; the state after `n` passes. -/
def listenLoop (isChecksum : Addr → Bool) (toChecksum : Addr → Option Addr)
    (mkProxy : Addr → NetworkProxy) (contents : Nat → ManifestContent) :
    Nat → RelayState → RelayState
  | 0, s => s
  | n + 1, s =>
    (listenStep isChecksum toChecksum mkProxy (contents n)
      (listenLoop isChecksum toChecksum mkProxy contents n s)).1

/-- One state-mutating operation of `TrustlinesRelay`, the data of its raw
event or call arguments inlined; external oracle answers (checksum validity,
the constructed proxy, push-backend token validation) are carried as data so
that a sequence of operations is first-order. -/
inductive RelayOp where
  | opNewNetwork (address : Addr) (checksumOk : Bool) (proxy : NetworkProxy)
  | opNewShield (address : Addr) (checksumOk : Bool)
  | opNewEscrow (address : Addr) (checksumOk : Bool)
  | opNewGateway (address : Addr) (checksumOk : Bool)
  | opNewExchange (address : Addr) (checksumOk : Bool)
  | opNewUnwEth (address : Addr) (checksumOk : Bool)
  | opBalanceUpdate (d : BalanceUpdateEventData)
  | opTrustlineUpdate (d : TrustlineUpdateEventData)
  | opTrustlineRequest (d : TrustlineUpdateEventData)
  | opTrustlineRequestCancel (d : TrustlineUpdateEventData)
  | opTransfer (d : TransferEventData)
  | opNetworkFreeze (address : Addr)
  | opFullSync (address : Addr) (rep : List Trustline)
  | opAddPushToken (u : Addr) (tok : Token) (tokenValid : Bool)
  | opDeletePushToken (u : Addr) (tok : Token)
  deriving DecidableEq

/-- The state reached by one `TrustlinesRelay` operation; a raised exception
keeps the mutations made before the raise, as in the source. -/
def stepOp (s : RelayState) : RelayOp → RelayState
  | .opNewNetwork a ok p => (newNetwork (fun _ => ok) (fun _ => p) s a).1
  | .opNewShield a ok => (newShield (fun _ => ok) s a).1
  | .opNewEscrow a ok => (newEscrow (fun _ => ok) s a).1
  | .opNewGateway a ok => (newGateway (fun _ => ok) s a).1
  | .opNewExchange a ok => (newExchange (fun _ => ok) s a).1
  | .opNewUnwEth a ok => (newUnwEth (fun _ => ok) s a).1
  | .opBalanceUpdate d => (processBalanceUpdate s d).1
  | .opTrustlineUpdate d => (processTrustlineUpdate s d).1
  | .opTrustlineRequest d => (processTrustlineRequest s d).1
  | .opTrustlineRequestCancel d => (processTrustlineRequestCancel s d).1
  | .opTransfer d => (processTransfer s d).1
  | .opNetworkFreeze a => (processNetworkFreeze s a).1
  | .opFullSync a rep => onFullSync s a rep
  | .opAddPushToken u tok valid =>
      (addPushClientToken (fun _ => valid) s u tok).1
  | .opDeletePushToken u tok => (deletePushClientToken s u tok).1

/-- The state reached by a sequence of operations, applied left to right. -/
def stepOps (s : RelayState) : List RelayOp → RelayState
  | [] => s
  | op :: rest => stepOps (stepOp s op) rest

/-- The number of entries of an association list stored under a key. -/
def countKey {τ : Type} (a : Addr) (l : List (Addr × τ)) : Nat :=
  l.countP (fun p => p.1 == a)

/-- The four derived publications the spec demands after a balance-affecting
mutation for `(user1, user2)` at `timestamp`: two directional balance-position
events and two network-position events, in this order, each carrying the
freshly accrued account sum from the (already mutated) graph and published to
the subject of the user it concerns. -/
def derivedEventsSpec (g2 : CurrencyNetworkGraph)
    (network_address user1 user2 : Addr) (timestamp : Nat) :
    List (Addr × PublishedEvent) :=
  [(user1, .balanceEvent network_address user1 user2
      (getAccountSumPair g2 user1 user2 timestamp) timestamp),
   (user2, .balanceEvent network_address user2 user1
      (getAccountSumPair g2 user2 user1 timestamp) timestamp),
   (user1, .networkBalanceEvent network_address user1
      (getAccountSumAll g2 user1 timestamp) timestamp),
   (user2, .networkBalanceEvent network_address user2
      (getAccountSumAll g2 user2 timestamp) timestamp)]

/-- A sample edge between two users, for concrete instantiations. -/
def sampleTrustline : Trustline :=
  { user1 := "0xA", user2 := "0xB", creditline_given := 10,
    creditline_received := 10, interest_rate_given := 0,
    interest_rate_received := 0, balance := 0, last_update_timestamp := 0 }

/-- A sample graph with the single edge `sampleTrustline`. -/
def sampleGraph : CurrencyNetworkGraph :=
  { capacity_imbalance_fee_divisor := 0, default_interest_rate := 0,
    custom_interests := false, prevent_mediator_interests := false,
    trustlines := [sampleTrustline] }

/-- A sample unfrozen network proxy. -/
def sampleProxy : NetworkProxy :=
  { capacity_imbalance_fee_divisor := 0, default_interest_rate := 0,
    custom_interests := false, prevent_mediator_interests := false,
    is_frozen := false }

/-- A sample relay state tracking the single network `"0xN"` with
`sampleGraph`, the push service enabled over an empty token store. -/
def sampleState : RelayState :=
  { currency_network_proxies := [("0xN", sampleProxy)],
    currency_network_graphs := [("0xN", sampleGraph)],
    shield_proxies := [], gateway_proxies := [], escrow_proxies := ["0xE"],
    unw_eth_proxies := ["0xU"], token_proxies := [],
    exchange_addresses := ["0xX"], known_identity_factories := [],
    subjects := [], messaging := [], firebase_enabled := true,
    client_token_db := some [], network_listeners := ["0xN"] }

/-- A sample raw balance update for the pair `("0xA", "0xB")` on `"0xN"`. -/
def sampleBU : BalanceUpdateEventData :=
  { network_address := "0xN", from_ := "0xA", to_ := "0xB", value := 500,
    timestamp := 100 }

/-- A sample raw trustline update for the pair `("0xA", "0xB")` on `"0xN"`. -/
def sampleTU : TrustlineUpdateEventData :=
  { network_address := "0xN", from_ := "0xA", to_ := "0xB",
    creditline_given := 20, creditline_received := 30,
    interest_rate_given := 1, interest_rate_received := 2, timestamp := 100 }

/-- Lookup distributes over append: the left list answers first. -/
theorem alookup_append {τ : Type} (a : Addr) (l1 l2 : List (Addr × τ)) :
    alookup a (l1 ++ l2) =
      match alookup a l1 with
      | some v => some v
      | none => alookup a l2 := by
  induction l1 with
  | nil => simp [alookup]
  | cons p t ih =>
    obtain ⟨k, v⟩ := p
    by_cases h : k = a
    · simp [alookup, h]
    · simp [alookup, h, ih]

/-- A key found in the left part of an append is still found after it. -/
theorem alookup_append_left {τ : Type} {a : Addr} {l1 : List (Addr × τ)}
    {v : τ} (l2 : List (Addr × τ)) (h : alookup a l1 = some v) :
    alookup a (l1 ++ l2) = some v := by
  rw [alookup_append, h]

/-- Lookup after updating the same key maps the stored value. -/
theorem alookup_aupdate_self {τ : Type} (a : Addr) (f : τ → τ)
    (l : List (Addr × τ)) :
    alookup a (aupdate a f l) = (alookup a l).map f := by
  induction l with
  | nil => simp [alookup, aupdate]
  | cons p t ih =>
    obtain ⟨k, v⟩ := p
    by_cases h : k = a
    · simp [alookup, aupdate, h]
    · simp [alookup, aupdate, h, ih]

/-- Lookup after updating a different key is unchanged. -/
theorem alookup_aupdate_ne {τ : Type} {a b : Addr} (f : τ → τ)
    (l : List (Addr × τ)) (h : b ≠ a) :
    alookup a (aupdate b f l) = alookup a l := by
  induction l with
  | nil => simp [alookup, aupdate]
  | cons p t ih =>
    obtain ⟨k, v⟩ := p
    by_cases hk : k = b
    · subst hk
      simp [alookup, aupdate, h, ih]
    · by_cases hk2 : k = a
      · simp [alookup, aupdate, hk, hk2, Ne.symm h]
      · simp [alookup, aupdate, hk, hk2, ih]

/-- Appending an entry for a key makes it present. -/
theorem ahas_append_self {τ : Type} (a : Addr) (l : List (Addr × τ)) (v : τ) :
    ahas a (l ++ [(a, v)]) = true := by
  rw [ahas, alookup_append]
  cases h : alookup a l with
  | none => simp [alookup]
  | some w => simp

/-- An absent key has zero entries. -/
theorem countKey_eq_zero_of_not_ahas {τ : Type} {a : Addr}
    {l : List (Addr × τ)} (h : ahas a l = false) : countKey a l = 0 := by
  induction l with
  | nil => simp [countKey]
  | cons p t ih =>
    obtain ⟨k, v⟩ := p
    by_cases hk : k = a
    · simp [ahas, alookup, hk] at h
    · have ht : ahas a t = false := by
        simpa [ahas, alookup, hk] using h
      simpa [countKey, List.countP_cons, hk] using ih ht

/-- Appending an entry for a key adds one to its entry count. -/
theorem countKey_append_self {τ : Type} (a : Addr) (l : List (Addr × τ))
    (v : τ) : countKey a (l ++ [(a, v)]) = countKey a l + 1 := by
  simp [countKey, List.countP_append, List.countP_cons]

/-- Materializing a defaultdict entry does not change any observed
subscription list. -/
theorem subjectSubs_touch (l : List (Addr × Subject)) (u v : Addr) :
    subjectSubs (touchSubject l u) v = subjectSubs l v := by
  rw [touchSubject]
  by_cases h : ahas u l = true
  · simp [h]
  · simp only [Bool.not_eq_true] at h
    rw [if_neg (by simp [h]), subjectSubs, alookup_append]
    cases hv : alookup v l with
    | some w => simp [subjectSubs, hv]
    | none =>
      by_cases huv : u = v
      · subst huv
        simp [subjectSubs, alookup, hv]
      · simp [subjectSubs, alookup, hv, huv]

/-- After materializing, the key is present. -/
theorem ahas_touch (l : List (Addr × Subject)) (u : Addr) :
    ahas u (touchSubject l u) = true := by
  rw [touchSubject]
  by_cases h : ahas u l = true
  · simp [h]
  · simp only [Bool.not_eq_true] at h
    rw [if_neg (by simp [h])]
    exact ahas_append_self u l _

/-- Subscribing appends one subscription to the subject's list. -/
theorem subjectSubs_subscribe_self (l : List (Addr × Subject)) (u : Addr)
    (c : SubClient) :
    subjectSubs (subjectSubscribe l u c) u = subjectSubs l u ++ [⟨c⟩] := by
  rw [subjectSubscribe]
  by_cases h : ahas u l = true
  · rw [if_pos h, subjectSubs, alookup_aupdate_self]
    rw [ahas] at h
    cases hv : alookup u l with
    | none => simp [hv] at h
    | some w => simp [subjectSubs, hv]
  · simp only [Bool.not_eq_true] at h
    rw [if_neg (by simp [h]), subjectSubs, alookup_append]
    rw [ahas] at h
    cases hv : alookup u l with
    | none => simp [subjectSubs, alookup, hv]
    | some w => simp [hv] at h

/-- Subscribing one subject leaves every other subject's list unchanged. -/
theorem subjectSubs_subscribe_ne (l : List (Addr × Subject)) {u v : Addr}
    (c : SubClient) (h : u ≠ v) :
    subjectSubs (subjectSubscribe l u c) v = subjectSubs l v := by
  rw [subjectSubscribe]
  by_cases hh : ahas u l = true
  · rw [if_pos hh, subjectSubs, alookup_aupdate_ne _ _ h, subjectSubs]
  · simp only [Bool.not_eq_true] at hh
    rw [if_neg (by simp [hh]), subjectSubs, alookup_append]
    cases hv : alookup v l with
    | some w => simp [subjectSubs, hv]
    | none => simp [subjectSubs, alookup, hv, h]

/-- After subscribing, the subject's key is present. -/
theorem ahas_subscribe_self (l : List (Addr × Subject)) (u : Addr)
    (c : SubClient) : ahas u (subjectSubscribe l u c) = true := by
  rw [subjectSubscribe]
  by_cases h : ahas u l = true
  · rw [if_pos h, ahas, alookup_aupdate_self]
    rw [ahas] at h
    cases hv : alookup u l with
    | none => simp [hv] at h
    | some w => simp [hv]
  · simp only [Bool.not_eq_true] at h
    rw [if_neg (by simp [h])]
    exact ahas_append_self u l _

/-- Closing the push subscriptions of one subject filters its list. -/
theorem subjectSubs_close_self (l : List (Addr × Subject)) (u : Addr)
    (tok : Token) :
    subjectSubs (closePushSubscriptions l u tok) u =
      (subjectSubs l u).filter (fun x => !(isPushWithToken tok x)) := by
  rw [closePushSubscriptions, subjectSubs, alookup_aupdate_self]
  cases hv : alookup u l with
  | none => simp [subjectSubs, hv]
  | some w => simp [subjectSubs, hv]

/-- Closing the push subscriptions of one subject leaves every other
subject's list unchanged. -/
theorem subjectSubs_close_ne (l : List (Addr × Subject)) {u v : Addr}
    (tok : Token) (h : u ≠ v) :
    subjectSubs (closePushSubscriptions l u tok) v = subjectSubs l v := by
  rw [closePushSubscriptions, subjectSubs, alookup_aupdate_ne _ _ h, subjectSubs]

/-- C1: for every balance-update event for the pair `(A, B)` at timestamp `t`
on a tracked network, `_process_balance_update` first applies the update to
that network's graph and then generates exactly four derived events, in order
`BalanceEvent(A to B)`, `BalanceEvent(B to A)`, `NetworkBalanceEvent(A)`,
`NetworkBalanceEvent(B)`, each stamped with `t` and carrying the account sum
freshly queried from the updated graph at `t`, and publishes each one to the
subject of the user it concerns. -/
theorem C1_balance_update_derives_four_events (s : RelayState)
    (d : BalanceUpdateEventData) (g : CurrencyNetworkGraph)
    (h : alookup d.network_address s.currency_network_graphs = some g) :
    processBalanceUpdate s d =
      ({ s with currency_network_graphs :=
          (aupdate d.network_address
            (fun _ => updateBalance g d.from_ d.to_ d.value d.timestamp)
            s.currency_network_graphs) },
       derivedEventsSpec (updateBalance g d.from_ d.to_ d.value d.timestamp)
         d.network_address d.from_ d.to_ d.timestamp,
       none) ∧
    ∀ p ∈ (processBalanceUpdate s d).2.1, p.1 = PublishedEvent.user p.2 := by
  have h1 : processBalanceUpdate s d =
      ({ s with currency_network_graphs :=
          (aupdate d.network_address
            (fun _ => updateBalance g d.from_ d.to_ d.value d.timestamp)
            s.currency_network_graphs) },
       derivedEventsSpec (updateBalance g d.from_ d.to_ d.value d.timestamp)
         d.network_address d.from_ d.to_ d.timestamp,
       none) := by
    simp [processBalanceUpdate, h, publishTrustlineEvents,
      generateTrustlineEvents, derivedEventsSpec, PublishedEvent.user]
  refine ⟨h1, ?_⟩
  intro p hp
  rw [h1] at hp
  simp only [derivedEventsSpec, List.mem_cons, List.mem_singleton,
    List.not_mem_nil, or_false] at hp
  rcases hp with rfl | rfl | rfl | rfl <;> rfl

/-- Witness for C1 at the sample state and balance update. -/
theorem C1_witness :
    alookup sampleBU.network_address sampleState.currency_network_graphs =
      some sampleGraph ∧
    (processBalanceUpdate sampleState sampleBU =
      ({ sampleState with currency_network_graphs :=
          (aupdate sampleBU.network_address
            (fun _ => updateBalance sampleGraph sampleBU.from_ sampleBU.to_
              sampleBU.value sampleBU.timestamp)
            sampleState.currency_network_graphs) },
       derivedEventsSpec
         (updateBalance sampleGraph sampleBU.from_ sampleBU.to_ sampleBU.value
           sampleBU.timestamp)
         sampleBU.network_address sampleBU.from_ sampleBU.to_
         sampleBU.timestamp,
       none) ∧
     ∀ p ∈ (processBalanceUpdate sampleState sampleBU).2.1,
       p.1 = PublishedEvent.user p.2) :=
  ⟨by decide,
   C1_balance_update_derives_four_events sampleState sampleBU sampleGraph
     (by decide)⟩

/-- C3 counterexample: processing the concrete raw balance-update `sampleBU`
publishes exactly four events and none of them is a per-user projection of
the raw event, so the raw balance-update event is not published to its
participants, contrary to the claim. -/
theorem C3_counterexample_raw_balance_event_not_published :
    (processBalanceUpdate sampleState sampleBU).2.1.countP
      (fun p => PublishedEvent.isRawProjection p.2) = 0 ∧
    (processBalanceUpdate sampleState sampleBU).2.1.length = 4 := by
  decide

/-- C3 amended: of the graph-mutating listeners, `_process_trustline_update`
publishes the raw event to its two participants followed by the four derived
balance events, but `_process_balance_update` publishes only the four derived
events and no projection of the raw balance-update event. -/
theorem C3_amended_raw_and_derived_publication (s : RelayState)
    (dT : TrustlineUpdateEventData) (dB : BalanceUpdateEventData)
    (gT gB : CurrencyNetworkGraph)
    (hT : alookup dT.network_address s.currency_network_graphs = some gT)
    (hB : alookup dB.network_address s.currency_network_graphs = some gB) :
    (processTrustlineUpdate s dT).2.1 =
      [(dT.from_, .rawTrustlineUpdate dT dT.from_),
       (dT.to_, .rawTrustlineUpdate dT dT.to_)] ++
      derivedEventsSpec
        (updateTrustline gT dT.from_ dT.to_ dT.creditline_given
          dT.creditline_received dT.interest_rate_given
          dT.interest_rate_received)
        dT.network_address dT.from_ dT.to_ dT.timestamp ∧
    (processBalanceUpdate s dB).2.1 =
      derivedEventsSpec
        (updateBalance gB dB.from_ dB.to_ dB.value dB.timestamp)
        dB.network_address dB.from_ dB.to_ dB.timestamp ∧
    (processBalanceUpdate s dB).2.1.countP
      (fun p => PublishedEvent.isRawProjection p.2) = 0 := by
  have hBal : (processBalanceUpdate s dB).2.1 =
      derivedEventsSpec
        (updateBalance gB dB.from_ dB.to_ dB.value dB.timestamp)
        dB.network_address dB.from_ dB.to_ dB.timestamp := by
    simp [processBalanceUpdate, hB, publishTrustlineEvents,
      generateTrustlineEvents, derivedEventsSpec, PublishedEvent.user]
  refine ⟨?_, hBal, ?_⟩
  · simp [processTrustlineUpdate, hT, publishBlockchainEvent,
      publishTrustlineEvents, generateTrustlineEvents, derivedEventsSpec,
      PublishedEvent.user]
  · rw [hBal]
    simp [derivedEventsSpec, PublishedEvent.isRawProjection, List.countP_cons]

/-- Witness for the amended C3 at the sample state and events. -/
theorem C3_amended_witness :
    alookup sampleTU.network_address sampleState.currency_network_graphs =
      some sampleGraph ∧
    ((processTrustlineUpdate sampleState sampleTU).2.1 =
      [(sampleTU.from_, .rawTrustlineUpdate sampleTU sampleTU.from_),
       (sampleTU.to_, .rawTrustlineUpdate sampleTU sampleTU.to_)] ++
      derivedEventsSpec
        (updateTrustline sampleGraph sampleTU.from_ sampleTU.to_
          sampleTU.creditline_given sampleTU.creditline_received
          sampleTU.interest_rate_given sampleTU.interest_rate_received)
        sampleTU.network_address sampleTU.from_ sampleTU.to_
        sampleTU.timestamp ∧
     (processBalanceUpdate sampleState sampleBU).2.1 =
      derivedEventsSpec
        (updateBalance sampleGraph sampleBU.from_ sampleBU.to_ sampleBU.value
          sampleBU.timestamp)
        sampleBU.network_address sampleBU.from_ sampleBU.to_
        sampleBU.timestamp ∧
     (processBalanceUpdate sampleState sampleBU).2.1.countP
      (fun p => PublishedEvent.isRawProjection p.2) = 0) :=
  ⟨by decide,
   C3_amended_raw_and_derived_publication sampleState sampleTU sampleBU
     sampleGraph sampleGraph (by decide) (by decide)⟩

/-- C4: registering the same address twice through `new_network` leaves
exactly one proxy, one graph and one attachment of listeners for it, the
second call being a no-op; and a non-checksum address fails the assert
without adding anything. -/
theorem C4_new_network_idempotent (isC : Addr → Bool) (mk : Addr → NetworkProxy)
    (s : RelayState) (a : Addr) :
    (isC a = false → newNetwork isC mk s a = (s, some .assertionError)) ∧
    (isC a = true → ahas a s.currency_network_proxies = false →
      countKey a s.currency_network_graphs = 0 →
      s.network_listeners.count a = 0 →
      (newNetwork isC mk (newNetwork isC mk s a).1 a =
        ((newNetwork isC mk s a).1, none) ∧
       countKey a (newNetwork isC mk s a).1.currency_network_proxies = 1 ∧
       countKey a (newNetwork isC mk s a).1.currency_network_graphs = 1 ∧
       (newNetwork isC mk s a).1.network_listeners.count a = 1)) := by
  constructor
  · intro h
    simp [newNetwork, h]
  · intro h1 h2 h3 h4
    have hfirst : newNetwork isC mk s a =
        ({ s with
            currency_network_proxies :=
              s.currency_network_proxies ++ [(a, mk a)],
            currency_network_graphs := s.currency_network_graphs ++
              [(a, { capacity_imbalance_fee_divisor :=
                       (mk a).capacity_imbalance_fee_divisor,
                     default_interest_rate := (mk a).default_interest_rate,
                     custom_interests := (mk a).custom_interests,
                     prevent_mediator_interests :=
                       (mk a).prevent_mediator_interests,
                     trustlines := [] })],
            network_listeners := s.network_listeners ++ [a] }, none) := by
      simp [newNetwork, h1, h2]
    rw [hfirst]
    refine ⟨?_, ?_, ?_, ?_⟩
    · simp [newNetwork, h1, ahas_append_self]
    · simp only [countKey_append_self]
      rw [countKey_eq_zero_of_not_ahas h2]
    · simp only [countKey_append_self]
      rw [h3]
    · simp [List.count_append, h4]

/-- Witness for C4 at a fresh address on the sample state. -/
theorem C4_witness :
    (fun (_ : Addr) => true) "0xM" = true ∧
    ahas "0xM" sampleState.currency_network_proxies = false ∧
    countKey "0xM" sampleState.currency_network_graphs = 0 ∧
    sampleState.network_listeners.count "0xM" = 0 ∧
    (newNetwork (fun _ => true) (fun _ => sampleProxy)
        (newNetwork (fun _ => true) (fun _ => sampleProxy) sampleState
          "0xM").1 "0xM" =
      ((newNetwork (fun _ => true) (fun _ => sampleProxy) sampleState
          "0xM").1, none) ∧
     countKey "0xM" (newNetwork (fun _ => true) (fun _ => sampleProxy)
        sampleState "0xM").1.currency_network_proxies = 1 ∧
     countKey "0xM" (newNetwork (fun _ => true) (fun _ => sampleProxy)
        sampleState "0xM").1.currency_network_graphs = 1 ∧
     (newNetwork (fun _ => true) (fun _ => sampleProxy) sampleState
        "0xM").1.network_listeners.count "0xM" = 1) :=
  ⟨rfl, by decide, by decide, by decide,
   (C4_new_network_idempotent (fun _ => true) (fun _ => sampleProxy)
      sampleState "0xM").2 rfl (by decide) (by decide) (by decide)⟩

/-- Starting push subscriptions never touches the proxy registry. -/
theorem startPush_proxies (c : Token → Bool) (s : RelayState) (u : Addr)
    (t : Token) :
    (startPushnotifications c s u t).1.currency_network_proxies =
      s.currency_network_proxies := by
  rw [startPushnotifications]
  split
  · rfl
  · dsimp only
    split <;> rfl

/-- Stopping push subscriptions never touches the proxy registry. -/
theorem stopPush_proxies (s : RelayState) (u : Addr) (t : Token) :
    (stopPushnotifications s u t).1.currency_network_proxies =
      s.currency_network_proxies := by
  rw [stopPushnotifications]
  split <;> rfl

/-- Registering a push token never touches the proxy registry. -/
theorem addPush_proxies (c : Token → Bool) (s : RelayState) (u : Addr)
    (t : Token) :
    (addPushClientToken c s u t).1.currency_network_proxies =
      s.currency_network_proxies := by
  rw [addPushClientToken]
  split
  · split
    · next s1 e heq =>
      have h1 := startPush_proxies c s u t
      rw [heq] at h1
      exact h1
    · next s1 heq =>
      have h1 := startPush_proxies c s u t
      rw [heq] at h1
      split
      · exact h1
      · next db hdb =>
        split <;> simpa using h1
  · rfl

/-- Deleting a push token never touches the proxy registry. -/
theorem deletePush_proxies (s : RelayState) (u : Addr) (t : Token) :
    (deletePushClientToken s u t).1.currency_network_proxies =
      s.currency_network_proxies := by
  rw [deletePushClientToken]
  split
  · split
    · exact stopPush_proxies s u t
    · next db hdb =>
      have h1 := stopPush_proxies
        { s with client_token_db :=
            (some (db.filter (fun p => !(p.1 == u && p.2 == t)))) } u t
      simpa using h1
  · rfl

/-- One relay operation preserves a frozen tracked network: its proxy stays
registered and stays frozen. -/
theorem stepOp_preserves_frozen (s : RelayState) (a : Addr) (p : NetworkProxy)
    (h : alookup a s.currency_network_proxies = some p)
    (hf : p.is_frozen = true) (op : RelayOp) :
    ∃ q, alookup a (stepOp s op).currency_network_proxies = some q ∧
      q.is_frozen = true := by
  cases op with
  | opNewNetwork b ok pr =>
    rw [stepOp, newNetwork]
    by_cases hok : ok = true
    · by_cases hb : ahas b s.currency_network_proxies = true
      · simp only [hok, hb]
        exact ⟨p, by simpa using h, hf⟩
      · simp only [hok, Bool.not_eq_true] at hb ⊢
        simp only [hb]
        refine ⟨p, ?_, hf⟩
        simpa using alookup_append_left _ h
    · simp only [Bool.not_eq_true] at hok
      simp only [hok]
      exact ⟨p, by simpa using h, hf⟩
  | opNewShield b ok =>
    refine ⟨p, ?_, hf⟩
    rw [stepOp, newShield]
    split
    · exact h
    · split <;> simpa using h
  | opNewEscrow b ok =>
    refine ⟨p, ?_, hf⟩
    rw [stepOp, newEscrow]
    split
    · exact h
    · split <;> simpa using h
  | opNewGateway b ok =>
    refine ⟨p, ?_, hf⟩
    rw [stepOp, newGateway]
    split
    · exact h
    · split <;> simpa using h
  | opNewExchange b ok =>
    refine ⟨p, ?_, hf⟩
    rw [stepOp, newExchange]
    split
    · exact h
    · split <;> simpa using h
  | opNewUnwEth b ok =>
    refine ⟨p, ?_, hf⟩
    rw [stepOp, newUnwEth]
    split
    · exact h
    · split <;> simpa using h
  | opBalanceUpdate d =>
    refine ⟨p, ?_, hf⟩
    rw [stepOp, processBalanceUpdate]
    cases hg : alookup d.network_address s.currency_network_graphs with
    | none => exact h
    | some g => simpa using h
  | opTrustlineUpdate d =>
    refine ⟨p, ?_, hf⟩
    rw [stepOp, processTrustlineUpdate]
    cases hg : alookup d.network_address s.currency_network_graphs with
    | none => exact h
    | some g => simpa using h
  | opTrustlineRequest d => exact ⟨p, h, hf⟩
  | opTrustlineRequestCancel d => exact ⟨p, h, hf⟩
  | opTransfer d => exact ⟨p, h, hf⟩
  | opNetworkFreeze b =>
    rw [stepOp, processNetworkFreeze]
    by_cases hb : ahas b s.currency_network_proxies = true
    · rw [if_pos hb]
      by_cases hab : b = a
      · subst hab
        refine ⟨{ p with is_frozen := true }, ?_, rfl⟩
        have hx : alookup b (aupdate b (fun q => { q with is_frozen := true })
            s.currency_network_proxies) = some { p with is_frozen := true } := by
          rw [alookup_aupdate_self, h]
          rfl
        simpa using hx
      · refine ⟨p, ?_, hf⟩
        have hx : alookup a (aupdate b (fun q => { q with is_frozen := true })
            s.currency_network_proxies) = some p := by
          rw [alookup_aupdate_ne _ _ hab]
          exact h
        simpa using hx
    · simp only [Bool.not_eq_true] at hb
      simp only [hb]
      exact ⟨p, by simpa using h, hf⟩
  | opFullSync b rep =>
    refine ⟨p, ?_, hf⟩
    rw [stepOp, onFullSync]
    simpa using h
  | opAddPushToken u tok valid =>
    refine ⟨p, ?_, hf⟩
    rw [stepOp, addPush_proxies]
    exact h
  | opDeletePushToken u tok =>
    refine ⟨p, ?_, hf⟩
    rw [stepOp, deletePush_proxies]
    exact h

/-- C5: once a tracked network's `is_frozen` flag is true, no sequence of
relay operations ever sets it back to false: after any operation sequence the
network's proxy is still registered and still frozen. -/
theorem C5_freeze_monotone (s : RelayState) (a : Addr) (p : NetworkProxy)
    (h : alookup a s.currency_network_proxies = some p)
    (hf : p.is_frozen = true) (ops : List RelayOp) :
    ∃ q, alookup a (stepOps s ops).currency_network_proxies = some q ∧
      q.is_frozen = true := by
  induction ops generalizing s p with
  | nil => exact ⟨p, h, hf⟩
  | cons op rest ih =>
    obtain ⟨q, hq, hqf⟩ := stepOp_preserves_frozen s a p h hf op
    exact ih (stepOp s op) q hq hqf

/-- Witness for C5: freeze the sample network, then run a sequence of further
operations; the network stays frozen. -/
theorem C5_witness :
    alookup "0xN"
        (processNetworkFreeze sampleState "0xN").1.currency_network_proxies =
      some { sampleProxy with is_frozen := true } ∧
    ({ sampleProxy with is_frozen := true } : NetworkProxy).is_frozen = true ∧
    ∃ q, alookup "0xN"
        (stepOps (processNetworkFreeze sampleState "0xN").1
          [RelayOp.opBalanceUpdate sampleBU,
           RelayOp.opNewNetwork "0xN" true sampleProxy,
           RelayOp.opNetworkFreeze "0xN",
           RelayOp.opAddPushToken "0xA" "tok1" true,
           RelayOp.opFullSync "0xN" []]).currency_network_proxies =
      some q ∧ q.is_frozen = true :=
  ⟨by decide, rfl,
   C5_freeze_monotone (processNetworkFreeze sampleState "0xN").1 "0xN"
     { sampleProxy with is_frozen := true } (by decide) (by decide)
     [RelayOp.opBalanceUpdate sampleBU,
      RelayOp.opNewNetwork "0xN" true sampleProxy,
      RelayOp.opNetworkFreeze "0xN",
      RelayOp.opAddPushToken "0xA" "tok1" true,
      RelayOp.opFullSync "0xN" []]⟩

/-- C6: registering the same `(subject, client token)` pair twice through
`add_push_client_token` creates exactly one push subscription for the pair:
the first call subscribes once and the second call detects the existing
subscription by its token and changes nothing. -/
theorem C6_push_token_registration_idempotent (check : Token → Bool)
    (s : RelayState) (u : Addr) (tok : Token)
    (h1 : s.firebase_enabled = true) (h2 : check tok = true)
    (h3 : countPushSubs s u tok = 0) :
    countPushSubs (addPushClientToken check s u tok).1 u tok = 1 ∧
    addPushClientToken check (addPushClientToken check s u tok).1 u tok =
      ((addPushClientToken check s u tok).1, none) := by
  have hAny : (subjectSubs s.subjects u).any (isPushWithToken tok) = false := by
    rw [countPushSubs, List.countP_eq_zero] at h3
    rw [List.any_eq_false]
    intro x hx
    simpa using h3 x hx
  have hstart : startPushnotifications check s u tok =
      ({ s with
          subjects := subjectSubscribe (touchSubject s.subjects u) u
            (.push tok),
          messaging := subjectSubscribe s.messaging u (.push tok) }, none) := by
    rw [startPushnotifications, if_neg (by simp [h2])]
    dsimp only
    rw [subjectSubs_touch, if_neg (by simp [hAny])]
  have hsubjval : ∀ r e, addPushClientToken check s u tok = (r, e) →
      r.subjects = subjectSubscribe (touchSubject s.subjects u) u
        (.push tok) ∧
      r.messaging = subjectSubscribe s.messaging u (.push tok) ∧
      r.firebase_enabled = true ∧ e = none ∧
      ((s.client_token_db = none ∧ r.client_token_db = none) ∨
        ∃ db1, r.client_token_db = some db1 ∧
          db1.contains (u, tok) = true) := by
    intro r e hr
    rw [addPushClientToken, if_pos h1, hstart] at hr
    dsimp only at hr
    cases hdb : s.client_token_db with
    | none =>
      rw [hdb] at hr
      dsimp only at hr
      cases hr
      exact ⟨rfl, rfl, h1, rfl, Or.inl ⟨rfl, rfl⟩⟩
    | some db0 =>
      rw [hdb] at hr
      dsimp only at hr
      by_cases hc : db0.contains (u, tok) = true
      · rw [if_pos hc] at hr
        cases hr
        exact ⟨rfl, rfl, h1, rfl, Or.inr ⟨db0, rfl, hc⟩⟩
      · rw [if_neg hc] at hr
        cases hr
        refine ⟨rfl, rfl, h1, rfl, Or.inr ⟨db0 ++ [(u, tok)], rfl, ?_⟩⟩
        simp [List.contains_eq_any_beq]
  obtain ⟨hsubj, hmsg, hfb, hnone, hdbv⟩ :=
    hsubjval (addPushClientToken check s u tok).1
      (addPushClientToken check s u tok).2 rfl
  have hcount : countPushSubs (addPushClientToken check s u tok).1 u tok = 1 := by
    rw [countPushSubs, hsubj, subjectSubs_subscribe_self, subjectSubs_touch]
    rw [List.countP_append]
    rw [countPushSubs] at h3
    rw [h3]
    simp [isPushWithToken]
  refine ⟨hcount, ?_⟩
  have hAny2 : (subjectSubs (addPushClientToken check s u tok).1.subjects
      u).any (isPushWithToken tok) = true := by
    rw [hsubj, subjectSubs_subscribe_self]
    simp [isPushWithToken]
  have htouch2 : touchSubject (addPushClientToken check s u tok).1.subjects u =
      (addPushClientToken check s u tok).1.subjects := by
    rw [touchSubject, if_pos]
    rw [hsubj]
    exact ahas_subscribe_self _ _ _
  have hstart2 : startPushnotifications check
      (addPushClientToken check s u tok).1 u tok =
      ((addPushClientToken check s u tok).1, none) := by
    rw [startPushnotifications, if_neg (by simp [h2])]
    dsimp only
    rw [htouch2, if_pos hAny2]
  rw [addPushClientToken, if_pos hfb, hstart2]
  dsimp only
  rcases hdbv with ⟨hdb0, hdb1⟩ | ⟨db1, hdb1, hc1⟩
  · rw [hdb1]
  · rw [hdb1]
    dsimp only
    rw [if_pos hc1]

/-- Witness for C6 at the sample state. -/
theorem C6_witness :
    sampleState.firebase_enabled = true ∧
    (fun (_ : Token) => true) "tok1" = true ∧
    countPushSubs sampleState "0xA" "tok1" = 0 ∧
    (countPushSubs
        (addPushClientToken (fun _ => true) sampleState "0xA" "tok1").1 "0xA"
        "tok1" = 1 ∧
     addPushClientToken (fun _ => true)
        (addPushClientToken (fun _ => true) sampleState "0xA" "tok1").1 "0xA"
        "tok1" =
      ((addPushClientToken (fun _ => true) sampleState "0xA" "tok1").1,
       none)) :=
  ⟨rfl, rfl, by decide,
   C6_push_token_registration_idempotent (fun _ => true) sampleState "0xA"
     "tok1" rfl rfl (by decide)⟩

/-- C7: `_stop_pushnotifications` closes exactly the push subscriptions of
the subject carrying the token (the post-state's list is the original list
with the matching subscriptions removed), raises `TokenNotFoundException` if
and only if no subscription matched, and on that error every subject's
subscription list is untouched. -/
theorem C7_stop_push_token_not_found (s : RelayState) (u : Addr)
    (tok : Token) :
    ((stopPushnotifications s u tok).2 = some .tokenNotFound ↔
      (subjectSubs s.subjects u).any (isPushWithToken tok) = false) ∧
    ((subjectSubs s.subjects u).any (isPushWithToken tok) = true →
      (stopPushnotifications s u tok).2 = none) ∧
    ((subjectSubs s.subjects u).any (isPushWithToken tok) = false →
      ∀ v, subjectSubs (stopPushnotifications s u tok).1.subjects v =
        subjectSubs s.subjects v) ∧
    subjectSubs (stopPushnotifications s u tok).1.subjects u =
      (subjectSubs s.subjects u).filter (fun x => !(isPushWithToken tok x)) ∧
    ∀ v, v ≠ u → subjectSubs (stopPushnotifications s u tok).1.subjects v =
      subjectSubs s.subjects v := by
  by_cases hm : (subjectSubs s.subjects u).any (isPushWithToken tok) = true
  · have hres : stopPushnotifications s u tok =
        ({ s with
            subjects := closePushSubscriptions (touchSubject s.subjects u) u
              tok,
            messaging := closePushSubscriptions s.messaging u tok }, none) := by
      rw [stopPushnotifications]
      dsimp only
      rw [subjectSubs_touch, if_pos hm]
    refine ⟨?_, ?_, ?_, ?_, ?_⟩
    · rw [hres]
      simp [hm]
    · intro _
      rw [hres]
    · intro hfalse
      rw [hfalse] at hm
      cases hm
    · rw [hres]
      dsimp only
      rw [subjectSubs_close_self, subjectSubs_touch]
    · intro v hv
      rw [hres]
      dsimp only
      rw [subjectSubs_close_ne _ _ (Ne.symm hv), subjectSubs_touch]
  · simp only [Bool.not_eq_true] at hm
    have hres : stopPushnotifications s u tok =
        ({ s with subjects := touchSubject s.subjects u },
         some .tokenNotFound) := by
      rw [stopPushnotifications]
      dsimp only
      rw [subjectSubs_touch, if_neg (by simp [hm])]
    refine ⟨?_, ?_, ?_, ?_, ?_⟩
    · rw [hres]
      simp [hm]
    · intro htrue
      rw [htrue] at hm
      cases hm
    · intro _ v
      rw [hres]
      dsimp only
      rw [subjectSubs_touch]
    · rw [hres]
      dsimp only
      rw [subjectSubs_touch]
      have hall := List.any_eq_false.mp hm
      rw [List.filter_eq_self.mpr]
      intro x hx
      simp [hall x hx]
    · intro v hv
      rw [hres]
      dsimp only
      rw [subjectSubs_touch]

/-- Witness for C7: deregistering an unknown token on the sample state fails
with `TokenNotFoundException`. -/
theorem C7_witness :
    (stopPushnotifications sampleState "0xA" "tok").2 =
      some Err.tokenNotFound :=
  (C7_stop_push_token_not_found sampleState "0xA" "tok").1.mpr (by decide)

/-- C8: with the push service enabled, `add_push_client_token` raises
`InvalidClientTokenException` exactly when the push backend rejects the
token, leaving the whole state untouched (nothing persisted); on successful
validation it subscribes idempotently (afterwards a push subscription with
the token exists, and nothing but the defaultdict materialization changes
when one already existed) and persists the mapping, treating an
already-exists conflict from the store as success. -/
theorem C8_add_push_token_validation (check : Token → Bool) (s : RelayState)
    (u : Addr) (tok : Token) (h1 : s.firebase_enabled = true) :
    (check tok = false →
      addPushClientToken check s u tok = (s, some .invalidClientToken)) ∧
    (check tok = true →
      (addPushClientToken check s u tok).2 = none ∧
      (subjectSubs (addPushClientToken check s u tok).1.subjects u).any
        (isPushWithToken tok) = true ∧
      ((subjectSubs s.subjects u).any (isPushWithToken tok) = true →
        (addPushClientToken check s u tok).1.subjects =
          touchSubject s.subjects u) ∧
      (∀ db0, s.client_token_db = some db0 →
        (db0.contains (u, tok) = true →
          (addPushClientToken check s u tok).1.client_token_db = some db0) ∧
        (db0.contains (u, tok) = false →
          (addPushClientToken check s u tok).1.client_token_db =
            some (db0 ++ [(u, tok)])))) := by
  constructor
  · intro hc
    have hsp : startPushnotifications check s u tok =
        (s, some .invalidClientToken) := by
      rw [startPushnotifications, if_pos (by simp [hc])]
    rw [addPushClientToken, if_pos h1, hsp]
  · intro hc
    by_cases ha : (subjectSubs s.subjects u).any (isPushWithToken tok) = true
    · have hstart : startPushnotifications check s u tok =
          ({ s with subjects := touchSubject s.subjects u }, none) := by
        rw [startPushnotifications, if_neg (by simp [hc])]
        dsimp only
        rw [subjectSubs_touch, if_pos ha]
      rw [addPushClientToken, if_pos h1, hstart]
      dsimp only
      cases hdb : s.client_token_db with
      | none =>
        dsimp only
        refine ⟨rfl, ?_, fun _ => rfl, ?_⟩
        · rw [subjectSubs_touch]
          exact ha
        · intro db0 hh
          cases hh
      | some db0' =>
        dsimp only
        by_cases hc0 : db0'.contains (u, tok) = true
        · rw [if_pos hc0]
          refine ⟨rfl, ?_, fun _ => rfl, ?_⟩
          · rw [subjectSubs_touch]
            exact ha
          · intro db0 hh
            cases hh
            refine ⟨fun _ => rfl, fun hcf => ?_⟩
            rw [hc0] at hcf
            cases hcf
        · rw [if_neg hc0]
          simp only [Bool.not_eq_true] at hc0
          refine ⟨rfl, ?_, fun _ => rfl, ?_⟩
          · rw [subjectSubs_touch]
            exact ha
          · intro db0 hh
            cases hh
            refine ⟨fun hct => ?_, fun _ => rfl⟩
            rw [hc0] at hct
            cases hct
    · simp only [Bool.not_eq_true] at ha
      have hstart : startPushnotifications check s u tok =
          ({ s with
              subjects := subjectSubscribe (touchSubject s.subjects u) u
                (.push tok),
              messaging := subjectSubscribe s.messaging u (.push tok) },
           none) := by
        rw [startPushnotifications, if_neg (by simp [hc])]
        dsimp only
        rw [subjectSubs_touch, if_neg (by simp [ha])]
      rw [addPushClientToken, if_pos h1, hstart]
      dsimp only
      have hany2 : (subjectSubs
          (subjectSubscribe (touchSubject s.subjects u) u (.push tok)) u).any
          (isPushWithToken tok) = true := by
        rw [subjectSubs_subscribe_self]
        simp [isPushWithToken]
      cases hdb : s.client_token_db with
      | none =>
        dsimp only
        refine ⟨rfl, hany2, ?_, ?_⟩
        · intro hat
          rw [hat] at ha
          cases ha
        · intro db0 hh
          cases hh
      | some db0' =>
        dsimp only
        by_cases hc0 : db0'.contains (u, tok) = true
        · rw [if_pos hc0]
          refine ⟨rfl, hany2, ?_, ?_⟩
          · intro hat
            rw [hat] at ha
            cases ha
          · intro db0 hh
            cases hh
            refine ⟨fun _ => rfl, fun hcf => ?_⟩
            rw [hc0] at hcf
            cases hcf
        · rw [if_neg hc0]
          simp only [Bool.not_eq_true] at hc0
          refine ⟨rfl, hany2, ?_, ?_⟩
          · intro hat
            rw [hat] at ha
            cases ha
          · intro db0 hh
            cases hh
            refine ⟨fun hct => ?_, fun _ => rfl⟩
            rw [hc0] at hct
            cases hct

/-- Witness for C8: a rejected token on the sample state raises
`InvalidClientTokenException` and leaves the state untouched. -/
theorem C8_witness :
    addPushClientToken (fun _ => false) sampleState "0xA" "bad" =
      (sampleState, some Err.invalidClientToken) :=
  (C8_add_push_token_validation (fun _ => false) sampleState "0xA" "bad"
    rfl).1 rfl

/-- C10: with the push service and the client-token store configured,
`delete_push_client_token` deletes the store mapping before checking for
matching subscriptions; when it raises `TokenNotFoundException` the store
mapping is already gone while every subject's subscription list is
unchanged. -/
theorem C10_delete_token_store_first (s : RelayState) (u : Addr) (tok : Token)
    (db0 : List (Addr × Token)) (h1 : s.firebase_enabled = true)
    (h2 : s.client_token_db = some db0)
    (h3 : (subjectSubs s.subjects u).any (isPushWithToken tok) = false) :
    deletePushClientToken s u tok =
      ({ s with
          client_token_db :=
            (some (db0.filter (fun p => !(p.1 == u && p.2 == tok)))),
          subjects := touchSubject s.subjects u }, some .tokenNotFound) ∧
    (db0.filter (fun p => !(p.1 == u && p.2 == tok))).contains (u, tok) =
      false ∧
    ∀ v, subjectSubs (deletePushClientToken s u tok).1.subjects v =
      subjectSubs s.subjects v := by
  have hres : deletePushClientToken s u tok =
      ({ s with
          client_token_db :=
            (some (db0.filter (fun p => !(p.1 == u && p.2 == tok)))),
          subjects := touchSubject s.subjects u }, some .tokenNotFound) := by
    rw [deletePushClientToken, if_pos h1]
    cases hdb : s.client_token_db with
    | none =>
      rw [hdb] at h2
      cases h2
    | some db1 =>
      rw [hdb] at h2
      cases h2
      dsimp only
      rw [stopPushnotifications]
      dsimp only
      rw [subjectSubs_touch, if_neg (by simp [h3])]
  refine ⟨hres, ?_, ?_⟩
  · rw [List.contains_eq_any_beq, List.any_eq_false]
    intro x hx
    rw [List.mem_filter] at hx
    obtain ⟨hmem, hpred⟩ := hx
    intro hbeq
    have hxe : x = (u, tok) := (beq_iff_eq.mp hbeq).symm
    subst hxe
    simp at hpred
  · intro v
    rw [hres]
    dsimp only
    rw [subjectSubs_touch]

/-- Witness for C10: a state whose store holds the mapping but whose hub has
no matching subscription; deleting raises `TokenNotFoundException` with the
mapping already removed from the store. -/
theorem C10_witness :
    ({ sampleState with client_token_db :=
        (some [("0xA", "tok")]) } : RelayState).firebase_enabled = true ∧
    ({ sampleState with client_token_db :=
        (some [("0xA", "tok")]) } : RelayState).client_token_db =
      some [("0xA", "tok")] ∧
    (subjectSubs ({ sampleState with client_token_db :=
        (some [("0xA", "tok")]) } : RelayState).subjects "0xA").any
      (isPushWithToken "tok") = false ∧
    (deletePushClientToken
        ({ sampleState with client_token_db := (some [("0xA", "tok")]) })
        "0xA" "tok" =
      ({ ({ sampleState with client_token_db :=
              (some [("0xA", "tok")]) } : RelayState) with
          client_token_db :=
            (some (([("0xA", "tok")] : List (Addr × Token)).filter
              (fun p => !(p.1 == "0xA" && p.2 == "tok")))),
          subjects := touchSubject
            ({ sampleState with client_token_db :=
                (some [("0xA", "tok")]) } : RelayState).subjects "0xA" },
       some .tokenNotFound) ∧
     (([("0xA", "tok")] : List (Addr × Token)).filter
        (fun p => !(p.1 == "0xA" && p.2 == "tok"))).contains ("0xA", "tok") =
      false ∧
     ∀ v, subjectSubs (deletePushClientToken
          ({ sampleState with client_token_db := (some [("0xA", "tok")]) })
          "0xA" "tok").1.subjects v =
       subjectSubs ({ sampleState with client_token_db :=
          (some [("0xA", "tok")]) } : RelayState).subjects v) :=
  ⟨rfl, rfl, by decide,
   C10_delete_token_store_first
     { sampleState with client_token_db := (some [("0xA", "tok")]) }
     "0xA" "tok" [("0xA", "tok")] rfl rfl (by decide)⟩

/-- C2: for a checksum user address, `get_user_events` builds one query task
per tracked currency network, unwrapped-ETH contract, exchange and escrow,
runs them all under the single timeout, and returns exactly `sorted_events`
of the concatenation of the completed tasks' results - a single sequence
sorted by the ordering key and a permutation of the gathered events; a `None`
timeout awaits every task. -/
theorem C2_get_user_events_aggregates (isC : Addr → Bool)
    (netTypes unwTypes exTypes esTypes : Addr → List String)
    (run : QuerySpec → List BlockchainEvent × Nat) (s : RelayState)
    (u : Addr) (ty : Option String) (fb : Nat) (timeout : Option Nat)
    (h : isC u = true) :
    (userEventQueries s netTypes unwTypes exTypes esTypes u ty fb).length =
      (networkAddresses s).length + s.unw_eth_proxies.length +
        s.exchange_addresses.length + s.escrow_proxies.length ∧
    getUserEvents isC netTypes unwTypes exTypes esTypes run s u ty fb
        timeout =
      some (sortedEvents
        ((joinall ((userEventQueries s netTypes unwTypes exTypes esTypes u ty
            fb).map run) timeout).flatten)) ∧
    (timeout = none →
      joinall ((userEventQueries s netTypes unwTypes exTypes esTypes u ty
          fb).map run) none =
        ((userEventQueries s netTypes unwTypes exTypes esTypes u ty fb).map
          run).map (fun t => t.1)) ∧
    ∀ l, getUserEvents isC netTypes unwTypes exTypes esTypes run s u ty fb
        timeout = some l →
      l.Sorted orderKeyLe ∧
      l.Perm ((joinall ((userEventQueries s netTypes unwTypes exTypes esTypes
        u ty fb).map run) timeout).flatten) := by
  have hmain : getUserEvents isC netTypes unwTypes exTypes esTypes run s u ty
      fb timeout =
      some (sortedEvents
        ((joinall ((userEventQueries s netTypes unwTypes exTypes esTypes u ty
            fb).map run) timeout).flatten)) := by
    rw [getUserEvents, if_neg (by simp [h])]
  refine ⟨?_, hmain, fun _ => rfl, ?_⟩
  · simp only [userEventQueries, List.length_append, List.length_map,
      getNetworkEventQueries, getUnwEthEventQueries, getExchangeEventQueries,
      getEscrowEventQueries]
  · intro l hl
    rw [hmain] at hl
    cases hl
    exact ⟨List.sorted_insertionSort orderKeyLe _,
      List.perm_insertionSort orderKeyLe _⟩

/-- Witness for C2 at the sample state (one network, one unwrapped-ETH
contract, one exchange, one escrow) with a trivial runner and no timeout. -/
theorem C2_witness :
    getUserEvents (fun _ => true) (fun _ => []) (fun _ => []) (fun _ => [])
        (fun _ => []) (fun _ => ([], 0)) sampleState "0xA" none 0 none =
      some (sortedEvents
        ((joinall ((userEventQueries sampleState (fun _ => []) (fun _ => [])
            (fun _ => []) (fun _ => []) "0xA" none 0).map
          (fun _ => ([], 0))) none).flatten)) :=
  (C2_get_user_events_aggregates (fun _ => true) (fun _ => []) (fun _ => [])
    (fun _ => []) (fun _ => []) (fun _ => ([], 0)) sampleState "0xA" none 0
    none rfl).2.1

/-- C9 counterexample: a malformed-JSON manifest is caught inside
`_load_addresses` itself and logged at error severity; no exception reaches
the discovery loop and no critical-severity line is logged, contrary to the
claim that the loop catches it and logs at critical severity. -/
theorem C9_counterexample_malformed_json_logged_error :
    (listenStep (fun _ => true) (fun a => some a) (fun _ => sampleProxy)
        .malformed sampleState).2.1.countP
      (fun e => e.severity == Severity.critical) = 0 ∧
    (listenStep (fun _ => true) (fun a => some a) (fun _ => sampleProxy)
        .malformed sampleState).2.1.countP
      (fun e => e.severity == Severity.error) = 1 ∧
    (loadAddresses (fun _ => true) (fun a => some a) (fun _ => sampleProxy)
        .malformed sampleState).2.2 = none := by
  decide

/-- C9 amended: every reconciliation pass falls through to the sleep and the
next pass runs, whatever the manifest outcome - the loop never terminates
because of one failing pass; an exception escaping `_load_addresses`
(unreadable manifest, failing registration) is caught by the loop and logged
at critical severity, while malformed JSON is caught inside `_load_addresses`
and logged at error severity without raising. -/
theorem C9_amended_discovery_loop_survives (isC : Addr → Bool)
    (toC : Addr → Option Addr) (mk : Addr → NetworkProxy)
    (contents : Nat → ManifestContent) (content : ManifestContent)
    (s : RelayState) :
    (listenStep isC toC mk content s).2.2 = true ∧
    ((loadAddresses isC toC mk content s).2.2.isSome = true →
      (listenStep isC toC mk content s).2.1.countP
        (fun e => e.severity == Severity.critical) ≥ 1) ∧
    (∀ n s0, listenLoop isC toC mk contents (n + 1) s0 =
      (listenStep isC toC mk (contents n)
        (listenLoop isC toC mk contents n s0)).1) ∧
    (content = .malformed →
      (listenStep isC toC mk content s).2.1 =
        [{ severity := .error,
           message := "Could not read addresses.json" }] ∧
      (loadAddresses isC toC mk content s).2.2 = none) := by
  refine ⟨?_, ?_, fun n s0 => rfl, ?_⟩
  · rw [listenStep]
    rcases hl : loadAddresses isC toC mk content s with ⟨s1, logs, err⟩
    cases err <;> rfl
  · rcases hl : loadAddresses isC toC mk content s with ⟨s1, logs, err⟩
    cases err with
    | none =>
      intro hs
      simp at hs
    | some e =>
      intro _
      rw [listenStep, hl]
      dsimp only
      simp [List.countP_append, List.countP_cons]
  · intro hcontent
    subst hcontent
    exact ⟨rfl, rfl⟩

/-- Witness for the amended C9: an unreadable manifest still lets the loop
fall through to the sleep and continue. -/
theorem C9_amended_witness :
    (listenStep (fun _ => true) (fun a => some a) (fun _ => sampleProxy)
        ManifestContent.unreadable sampleState).2.2 = true :=
  (C9_amended_discovery_loop_survives (fun _ => true) (fun a => some a)
    (fun _ => sampleProxy) (fun _ => ManifestContent.unreadable)
    ManifestContent.unreadable sampleState).1

end Relay
